import Mathlib

/-!
Shallow embedding of the `twitter_blocker` processing core
(`src/twitter_blocker/retry.py`, `database.py`, `manager.py`, `api.py`,
`config.py`) and verification of the specification's claims about it.

Conventions of the embedding:
* Python `str` is `String`; `None`-able values are `Option _`.
* Python `int` is `Int` (ℤ); timestamps are modelled as exact rationals `ℚ`
  (every float arithmetic step appearing in the claims is exact over ℚ,
  and the single inexact multiplier 0.8 keeps the same truncated integer
  result, see the comment at `calculate_backoff_delay`).
* The SQLite table `block_history` is a `List BlockRow` in insertion order;
  SQL three-valued logic over NULL columns is modelled explicitly
  (a NULL comparison never satisfies a WHERE predicate).
* Python truthiness is modelled by explicit helpers (`pyTruthyPair`,
  `pyTruthyIntOpt`, `pyOrStr`): in CPython a 2-tuple object is always
  truthy (`bool(t) = len(t) > 0`), `0`/`None` are falsy ints, and
  `s or d` returns `d` when the string `s` is empty.
-/

/-- Auxiliary: does `n` occur as a contiguous run inside the second list? -/
def listHasInfix (n : List Char) : List Char → Bool
  | [] => n.isEmpty
  | c :: cs => n.isPrefixOf (c :: cs) || listHasInfix n cs

/-- Substring test: Python's `needle in haystack` on `str`. -/
def containsSub (needle haystack : String) : Bool :=
  listHasInfix needle.toList haystack.toList

/-- Python's `str.lower()` modelled as ASCII lower-casing of each character
(`String.toLower` re-implemented over the character list so that it
kernel-reduces; every pattern the source lower-cases against is ASCII). -/
def pyLower (s : String) : String := ⟨s.data.map Char.toLower⟩

/-- Python truthiness of a 2-tuple object: a tuple of length 2 is always
truthy (`bool(t)` is `len(t) > 0`), regardless of its components.  This is
how `retry.should_retry`'s return value behaves when a caller writes
`if manager.should_retry(...)` or `not manager.should_retry(...)`. -/
def pyTruthyPair (_ : Bool × Option String) : Bool := true

/-- Python truthiness of an `Optional[int]`: `None` and `0` are falsy. -/
def pyTruthyIntOpt : Option Int → Bool
  | none => false
  | some n => n != 0

/-- Python `s or d` for an `Optional[str] s`: `None` and `""` fall back. -/
def pyOrStr (o : Option String) (d : String) : String :=
  match o with
  | none => d
  | some s => if s = "" then d else s

/-- Python `dict.get k` over a header mapping modelled as an association
list (dict keys are unique, first match). -/
def headerGet (headers : List (String × String)) (k : String) : Option String :=
  (headers.find? (fun kv => kv.1 = k)).map (·.2)

/-! ## `retry.py` — `ErrorClassifier` -/

/-- Embedding of `ErrorClassifier.classify_403_error(response_text, headers, status_code)`
from `retry.py`.  Returns `(error_type, description, priority_level)`.
`headers` is `Optional[Dict[str,str]]` (`headers = headers or {}` in the
source).  `response_lower = response_text.lower() if response_text else ""`
equals `pyLower response_text` in all cases since `"".toLower = ""`. -/
def classify_403_error (response_text : String)
    (headers : Option (List (String × String)) := none)
    (status_code : Int := 403) : String × String × Int :=
  if status_code != 403 then ("NOT_403", "Not a 403 error", 0)
  else
    let r := pyLower response_text
    let hs := headers.getD []
    if containsSub "rate limit" r || containsSub "too many requests" r
        || headerGet hs "x-rate-limit-remaining" == some "0" then
      ("rate_limit", "API rate limit exceeded", 1)
    else if containsSub "authorization" r || containsSub "authenticate" r
        || containsSub "invalid token" r || containsSub "credential" r then
      ("auth_required", "Authentication required or invalid", 2)
    else if containsSub "permission" r || containsSub "access denied" r
        || containsSub "not authorized" r || containsSub "forbidden" r then
      ("permission_denied", "Insufficient permissions", 2)
    else if containsSub "account" r && (containsSub "restricted" r
        || containsSub "limited" r || containsSub "suspended" r
        || containsSub "locked" r) then
      ("account_restricted", "Account restrictions detected", 3)
    -- Python precedence: `a or b or c and d` is `a or b or (c and d)`
    else if containsSub "header" r || containsSub "user-agent" r
        || (containsSub "missing" r && containsSub "required" r) then
      ("header_issue", "Header validation failed", 1)
    else if containsSub "bot" r || containsSub "automated" r
        || containsSub "suspicious" r || containsSub "unusual activity" r
        || containsSub "verification" r then
      ("anti_bot", "Anti-bot system triggered", 2)
    else if containsSub "ip" r && (containsSub "blocked" r
        || containsSub "restricted" r) then
      ("ip_blocked", "IP address blocked or restricted", 3)
    else if containsSub "unknown error" r then
      ("unknown_403", "Twitter Unknown Error - likely anti-bot", 2)
    else
      ("unknown_403", "Unclassified 403 Forbidden error", 2)

/-! ## `retry.py` — `RetryManager.should_retry` -/

def PERMANENT_FAILURES : List String := ["not_found", "deactivated", "suspended"]

def TEMPORARY_FAILURES : List String := ["unavailable"]

def RETRYABLE_STATUS_CODES : List Int := [403, 429, 500, 502, 503, 504]

def RETRYABLE_MESSAGES : List String :=
  ["temporarily unavailable", "rate limit", "timeout", "server error", "unknown error"]

def MAX_RETRIES : Int := 10

/-- Embedding of `RetryManager.should_retry(user_status, status_code, error_message,
retry_count, response_text="", response_headers=None)` from `retry.py`.
The second component is the `Optional[str]` classification; every return
site in the source yields a concrete string, hence `some _`. -/
def should_retry (user_status : String) (status_code : Option Int)
    (error_message : String) (retry_count : Int)
    (response_text : String := "")
    (response_headers : Option (List (String × String)) := none) :
    Bool × Option String :=
  if retry_count ≥ MAX_RETRIES then (false, some "max_retries_exceeded")
  else if user_status ∈ PERMANENT_FAILURES then (false, some "permanent_failure")
  else if user_status ∈ TEMPORARY_FAILURES then (true, some "temporary_failure")
  else if status_code == some 403 then
    let c := classify_403_error response_text response_headers 403
    let error_type := c.1
    let priority := c.2.2
    if (error_type ∈ ["account_restricted", "ip_blocked"]) ∧ priority ≥ 3 then
      (false, some error_type)
    else
      (true, some error_type)
  -- `if status_code and status_code in RETRYABLE_STATUS_CODES`
  else if pyTruthyIntOpt status_code
      && decide (status_code.getD 0 ∈ RETRYABLE_STATUS_CODES) then
    (true, some ("status_code_" ++ toString (status_code.getD 0)))
  -- `if error_message:` block falls through when no message pattern matches
  else if error_message ≠ ""
      && RETRYABLE_MESSAGES.any (fun m => containsSub m (pyLower error_message)) then
    (true, some "message_based_retry")
  else if error_message ≠ "" && containsSub "ユーザー情報取得失敗" error_message then
    (true, some "japanese_error_message")
  else if status_code == none && error_message ≠ ""
      && !containsSub "permanent" (pyLower error_message) then
    (true, some "null_status_retry")
  else
    (false, some "no_retry_condition_met")

example : classify_403_error "account suspended and forbidden" none 403 =
    ("permission_denied", "Insufficient permissions", 2) := by decide

example : (should_retry "not_found" (some 404) "x" 0 "" none) =
    (false, some "permanent_failure") := by decide

example : (should_retry "active" (some 500) "x" 0 "" none) =
    (true, some "status_code_500") := by decide

/-! ## `retry.py` — `AdaptiveBackoffStrategy` and `RetryManager.get_retry_delay`

Floats are modelled over `ℚ`.  Every multiplier in the source
(`2.0, 1.5, 1.0, 3.0, 0.5, 2.5, 4.0, 0.8`) except `0.8` is exact in binary
floating point, and every partial product before the final `int(...)` is an
integer or dyadic rational; for the single inexact factor `0.8` the CPython
product `N * 0.8` (with `N ≤ 960` an integer) truncates to `⌊4N/5⌋` exactly
as the rational computation does, so `Int.floor` over `ℚ` reproduces
`int(...)` on every reachable input. -/

/-- One entry of `AdaptiveBackoffStrategy.error_history`:
`(timestamp, error_type, success)`. -/
structure AttemptEntry where
  time : ℚ
  error_type : String
  success : Bool
deriving DecidableEq

/-- Embedding of `AdaptiveBackoffStrategy._calculate_recent_success_rate(error_type)`;
`history` is `self.error_history`, `now` is `time.time()`, the window is
`self.success_rate_window = 300`. -/
def calculate_recent_success_rate (history : List AttemptEntry) (now : ℚ)
    (error_type : String) : ℚ :=
  let cutoff := now - 300
  let relevant := history.filter (fun e => e.time ≥ cutoff && e.error_type == error_type)
  if relevant.isEmpty then 1/2
  else ((relevant.filter (·.success)).length : ℚ) / (relevant.length : ℚ)

/-- The success-rate adjustment ladder inside `calculate_backoff_delay`. -/
def success_multiplier_of_rate (success_rate : ℚ) : ℚ :=
  if success_rate < 3/10 then 2
  else if success_rate < 1/2 then 3/2
  else if success_rate > 4/5 then 4/5
  else 1

/-- Embedding of `type_multipliers.get(error_type, 1.0)` from `calculate_backoff_delay`. -/
def type_multiplier (error_type : String) : ℚ :=
  if error_type = "rate_limit" then 2
  else if error_type = "auth_required" then 3/2
  else if error_type = "permission_denied" then 1
  else if error_type = "account_restricted" then 3
  else if error_type = "header_issue" then 1/2
  else if error_type = "unknown_403" then 5/2
  else if error_type = "anti_bot" then 3
  else if error_type = "ip_blocked" then 4
  else 1

/-- Embedding of `AdaptiveBackoffStrategy.calculate_backoff_delay(error_type, retry_count,
base_delay=30)` from `retry.py`.  `history`/`now` stand for the strategy's
mutable `error_history` state and the current clock read. -/
def calculate_backoff_delay (history : List AttemptEntry) (now : ℚ)
    (error_type : String) (retry_count : ℕ) (base_delay : Int := 30) : Int :=
  let success_rate := calculate_recent_success_rate history now error_type
  let success_mult := success_multiplier_of_rate success_rate
  let base_multiplier := type_multiplier error_type
  let exponential_factor : Int := min (2 ^ retry_count) 8
  let total_delay : Int :=
    Int.floor ((base_delay : ℚ) * base_multiplier * (exponential_factor : ℚ) * success_mult)
  let min_delay : Int := if error_type = "header_issue" then 5 else 10
  let max_delay : Int :=
    if error_type = "ip_blocked" ∨ error_type = "account_restricted" then 1800 else 600
  max min_delay (min total_delay max_delay)

/-- Embedding of `RetryManager.get_retry_delay(retry_count, base_delay=30, status_code,
error_message, error_classification, ...)` from `retry.py`. -/
def get_retry_delay (history : List AttemptEntry) (now : ℚ) (retry_count : ℕ)
    (base_delay : Int := 30) (status_code : Option Int := none)
    (error_message : String := "") (error_classification : String := "") : Int :=
  if status_code == some 403 && error_classification ≠ "" then
    calculate_backoff_delay history now error_classification retry_count base_delay
  else if status_code == some 403 && containsSub "unknown error" (pyLower error_message) then
    base_delay * 3 * (2 ^ retry_count)
  else
    base_delay * (2 ^ retry_count)

/-! ## `api.py` — `TwitterAPI._calculate_wait_time`

The reset header is taken already parsed (`reset : Int` is the value
`int(x-rate-limit-reset)`); `now` is `int(time.time())`. -/

/-- The wait computed by `_calculate_wait_time` when the
`x-rate-limit-reset` header parses as an integer:
`wait_seconds = max(reset - now, 0)`, result
`max(60, min(wait_seconds + 10, 900))`. -/
def calculate_wait_time (reset now : Int) : Int :=
  let wait_seconds := max (reset - now) 0
  max 60 (min (wait_seconds + 10) 900)

/-! ## `database.py` — the `block_history` table -/

/-- One row of `block_history`.  `status` is NOT NULL (written on every
insert); the remaining data columns are nullable.  The autoincrement
primary key is the list position and is not materialised. -/
structure BlockRow where
  screen_name : Option String
  user_id : Option String
  display_name : Option String
  status : String
  response_code : Option Int
  error_message : Option String
  user_status : Option String
  retry_count : Option Int
  last_retry_at : Option ℚ
deriving DecidableEq

/-- Embedding of `DatabaseManager.record_block_result(...)`: an
`INSERT OR REPLACE INTO block_history` whose only applicable uniqueness
constraint is `UNIQUE(user_id)`.  SQLite treats NULLs as distinct in
UNIQUE constraints, so a conflict (and hence a replacement) happens only
when the inserted `user_id` is non-NULL and equal to an existing row's;
a row with `user_id = NULL` is always appended. -/
def record_block_result (tbl : List BlockRow)
    (screen_name user_id display_name : Option String) (success : Bool)
    (status_code : Int) (error_message : Option String := none)
    (user_status : Option String := none) (retry_count : Int := 0)
    (now : ℚ := 0) : List BlockRow :=
  let row : BlockRow :=
    { screen_name := screen_name
      user_id := user_id
      display_name := display_name
      status := if success then "blocked" else "failed"
      response_code := some status_code
      error_message := error_message
      user_status := user_status
      retry_count := some retry_count
      last_retry_at := some now }
  match user_id with
  | some uid => tbl.filter (fun r => r.user_id ≠ some uid) ++ [row]
  | none => tbl ++ [row]

/-- Embedding of `DatabaseManager.is_already_blocked(identifier, user_format)`. -/
def is_already_blocked (tbl : List BlockRow) (identifier : String)
    (user_format : String := "screen_name") : Bool :=
  tbl.any (fun r =>
    (if user_format = "user_id" then r.user_id == some identifier
     else r.screen_name == some identifier) && r.status == "blocked")

/-- Embedding of `DatabaseManager.is_permanent_failure(identifier, user_format)`:
fetch the first `failed` row for the identifier; if none, `False`; else
`not retry_manager.should_retry(user_status or "unknown",
response_code or 0, error_message or "", retry_count or 0)` — where the
operand of `not` is the *tuple* returned by `should_retry`, so the
Python `not` is applied to a always-truthy 2-tuple. -/
def is_permanent_failure (tbl : List BlockRow) (identifier : String)
    (user_format : String := "screen_name") : Bool :=
  let result := (tbl.filter (fun r =>
    (if user_format = "user_id" then r.user_id == some identifier
     else r.screen_name == some identifier) && r.status == "failed")).head?
  match result with
  | none => false
  | some r =>
      !(pyTruthyPair (should_retry (pyOrStr r.user_status "unknown")
        (some (r.response_code.getD 0)) (r.error_message.getD "")
        (r.retry_count.getD 0) "" none))

/-- Embedding of `DatabaseManager.get_permanent_failures_batch(identifiers, user_format)`:
the result dict is modelled as an association list `key ↦ row`.  A row
enters the dict only when `is_permanent = not retry_manager.should_retry(...)`
is truthy — which, `should_retry` returning a 2-tuple, never happens. -/
def get_permanent_failures_batch (tbl : List BlockRow)
    (identifiers : List String) (user_format : String := "screen_name") :
    List (String × BlockRow) :=
  if identifiers.isEmpty then []
  else
    let rows := tbl.filter (fun r =>
      (if user_format = "user_id" then
        match r.user_id with | some uid => identifiers.contains uid | none => false
       else
        match r.screen_name with | some sn => identifiers.contains sn | none => false)
      && r.status == "failed")
    rows.filterMap (fun r =>
      let key := if user_format = "user_id" then r.user_id.getD ""
                 else r.screen_name.getD ""
      let is_permanent :=
        !(pyTruthyPair (should_retry (pyOrStr r.user_status "unknown")
          (some (r.response_code.getD 0)) (r.error_message.getD "")
          (r.retry_count.getD 0) "" none))
      if is_permanent then some (key, r) else none)

/-- Python `2 ** retry_count` as CPython evaluates it on an `int` that may be
negative (negative exponents produce a float). -/
def pyPow2 (n : Int) : ℚ :=
  if n ≥ 0 then (2 : ℚ) ^ n.toNat else 1 / (2 : ℚ) ^ (-n).toNat

/-- A row of the list returned by `get_retry_candidates`. -/
structure RetryCandidate where
  screen_name : Option String
  user_id : Option String
  display_name : Option String
  retry_count : Int
  user_status : Option String
  last_error : Option String
deriving DecidableEq

/-- Embedding of `DatabaseManager.get_retry_candidates()`: the SQL WHERE clause under
SQLite's three-valued logic (a NULL `retry_count`, `user_status`,
`response_code` or `error_message` never satisfies `<`, `IN` or `LIKE`;
`response_code IS NULL` is the explicit NULL test), followed by the Python
loop that keeps a row only when `last_retry_at` is set and
`now - last_retry ≥ 30 * 2**retry_count`.  The `ORDER BY last_retry_at`
is not modelled: the claims concern membership only. -/
def get_retry_candidates (tbl : List BlockRow) (now : ℚ) : List RetryCandidate :=
  let selected := tbl.filter (fun r =>
    r.status == "failed"
    && (match r.retry_count with | some rc => rc < 10 | none => false)
    && ((match r.user_status with
          | some us => us == "unavailable"
          | none => false)
      || (match r.response_code with
          | some c => [429, 500, 502, 503, 504].contains c
          | none => false)
      || r.response_code == none
      || (match r.error_message with
          | some m => containsSub "temporarily" m || containsSub "rate limit" m
              || containsSub "timeout" m || containsSub "server error" m
              || containsSub "ユーザー情報取得失敗" m
          | none => false)))
  selected.filterMap (fun r =>
    match r.last_retry_at with
    | none => none
    | some last_retry =>
        if now - last_retry ≥ 30 * pyPow2 (r.retry_count.getD 0) then
          some { screen_name := r.screen_name
                 user_id := r.user_id
                 display_name := r.display_name
                 retry_count := r.retry_count.getD 0
                 user_status := r.user_status
                 last_error := r.error_message }
        else none)

/-! ## `manager.py` — the decision ladder and batch dispatch -/

/-- The slice of a fetched `user_info` dict that the decision ladder
consults (`manager.py`).  Missing keys are `none`; `user_info.get(k, d)`
is `getD`. -/
structure UserInfo where
  unavailable : Bool
  user_status : Option String
  id : Option String
  name : Option String
deriving DecidableEq

/-- The argument tuple of a `record_block_result` call issued by the
manager, so the ladder's write can be inspected. -/
structure RecordArgs where
  screen_name : Option String
  user_id : Option String
  display_name : Option String
  success : Bool
  status_code : Int
  error_message : Option String
  user_status : Option String
  retry_count : Int
deriving DecidableEq

/-- Apply a recorded call to a table at a given timestamp. -/
def applyRecord (tbl : List BlockRow) (a : RecordArgs) (now : ℚ) : List BlockRow :=
  record_block_result tbl a.screen_name a.user_id a.display_name a.success
    a.status_code a.error_message a.user_status a.retry_count now

/-- Embedding of `BulkBlockManager._check_user_unavailable(user_info, screen_name,
stats)`: returns whether the target was handled plus the
`record_block_result` call it issues.  The branch condition in the source
is `if self.retry_manager.should_retry(user_status, 0, f"User
{user_status}", 0):` — the *tuple* itself is the condition, so
`pyTruthyPair` governs which record is written. -/
def check_user_unavailable (u : UserInfo) (screen_name : String) :
    Bool × Option RecordArgs :=
  if u.unavailable then
    let user_status := u.user_status.getD "unavailable"
    if pyTruthyPair (should_retry user_status (some 0)
        ("User " ++ user_status) 0 "" none) then
      (true, some { screen_name := some screen_name
                    user_id := u.id
                    display_name := u.name
                    success := false
                    status_code := 0
                    error_message := some ("User " ++ user_status)
                    user_status := some user_status
                    retry_count := 0 })
    else
      (true, some { screen_name := some screen_name
                    user_id := u.id
                    display_name := u.name
                    success := false
                    status_code := 0
                    error_message := some ("User " ++ user_status ++ " (permanent)")
                    user_status := some user_status
                    retry_count := 0 })
  else (false, none)

/-- The outcome dict returned by `api.block_user`. -/
structure BlockResult where
  success : Bool
  status_code : Option Int
  error_message : Option String
deriving DecidableEq

/-- Embedding of `BulkBlockManager._execute_block(user_info, screen_name, stats)`:
the `record_block_result` call it issues.  On failure the branch is again
`if self.retry_manager.should_retry(...)` over the returned tuple, and
both failure branches pass `retry_count = 0`. -/
def execute_block_record (u : UserInfo) (screen_name : String)
    (block_result : BlockResult) : RecordArgs :=
  if block_result.success then
    { screen_name := some screen_name
      user_id := u.id
      display_name := u.name
      success := true
      status_code := block_result.status_code.getD 200
      error_message := none
      user_status := some (u.user_status.getD "active")
      retry_count := 0 }
  else
    let user_status := u.user_status.getD "active"
    let status_code := block_result.status_code.getD 0
    let error_message := block_result.error_message.getD "Unknown error"
    if pyTruthyPair (should_retry user_status (some status_code)
        error_message 0 "" none) then
      { screen_name := some screen_name
        user_id := u.id
        display_name := u.name
        success := false
        status_code := status_code
        error_message := some error_message
        user_status := some user_status
        retry_count := 0 }
    else
      { screen_name := some screen_name
        user_id := u.id
        display_name := u.name
        success := false
        status_code := status_code
        error_message := some (error_message ++ " (permanent)")
        user_status := some user_status
        retry_count := 0 }

/-- Embedding of `DatabaseManager.get_blocked_users_set(user_format)`. -/
def get_blocked_users_set (tbl : List BlockRow) (user_format : String) :
    List String :=
  if user_format = "user_id" then
    tbl.filterMap (fun r => if r.status = "blocked" then r.user_id else none)
  else
    tbl.filterMap (fun r => if r.status = "blocked" then r.screen_name else none)

/-- Embedding of `BulkBlockManager.get_remaining_users()`: the loaded target list
filtered against the blocked set — `config.load_users_data` returns
`data["users"]` unchanged (schema validation only), so no other filtering
or deduplication happens before this point. -/
def get_remaining_users (tbl : List BlockRow) (target_users : List String)
    (user_format : String) : List String :=
  target_users.filter (fun user => !(get_blocked_users_set tbl user_format).contains user)

/-- The `unchecked_ids` list one slice of
`BulkBlockManager._process_users_batch` builds (identically
`unchecked_names` in `_process_screen_names_batch`): batch members that
are neither already blocked nor keys of the permanent-failures dict.
Every element of this list is subsequently sent to the batch lookup and
the decision ladder, one iteration per occurrence. -/
def unchecked_ids (tbl : List BlockRow) (batch_ids : List String)
    (user_format : String) : List String :=
  let permanent_failures := get_permanent_failures_batch tbl batch_ids user_format
  batch_ids.filter (fun uid =>
    !is_already_blocked tbl uid user_format
    && !(permanent_failures.any (fun kv => kv.1 == uid)))

/-! ## Spec-side vocabulary (§3/§4.D of the spec)

The spec names the classifier's final 403 kind `unknown_forbidden`; the
code's classification string for the same kind is `"unknown_403"`.
`kindString` is that correspondence. -/

/-- The eight 403 error kinds of the spec's delay table (§4.D). -/
inductive SpecErrorKind
  | rate_limit | auth_required | permission_denied | header_issue
  | unknown_forbidden | anti_bot | account_restricted | ip_blocked
deriving DecidableEq

/-- The classification string the code uses for each spec-level kind. -/
def kindString : SpecErrorKind → String
  | .rate_limit => "rate_limit"
  | .auth_required => "auth_required"
  | .permission_denied => "permission_denied"
  | .header_issue => "header_issue"
  | .unknown_forbidden => "unknown_403"
  | .anti_bot => "anti_bot"
  | .account_restricted => "account_restricted"
  | .ip_blocked => "ip_blocked"

/-- The spec's per-kind base multiplier table (§4.D / claim C6). -/
def specBaseMultiplier : SpecErrorKind → ℚ
  | .rate_limit => 2
  | .auth_required => 3/2
  | .permission_denied => 1
  | .header_issue => 1/2
  | .unknown_forbidden => 5/2
  | .anti_bot => 3
  | .account_restricted => 3
  | .ip_blocked => 4

/-- The spec's kind-specific lower clamp (header_issue = 5 s, else 10 s). -/
def specMinDelay : SpecErrorKind → Int
  | .header_issue => 5
  | _ => 10

/-- The spec's kind-specific upper clamp
(account_restricted / ip_blocked = 1800 s, else 600 s). -/
def specMaxDelay : SpecErrorKind → Int
  | .account_restricted => 1800
  | .ip_blocked => 1800
  | _ => 600

/-! ## The classifier as an ordered first-match rule table

Used to state the *amended* form of the spec's §4.C order claim: the rules
in the order the code actually checks them. -/

/-- One §4.C rule: a match predicate over (lower-cased body, headers) and
the `(kind, description, priority)` it yields. -/
def Rule403 : Type :=
  (String → List (String × String) → Bool) × String × String × Int

/-- First-match evaluation of an ordered rule table. -/
def applyRules403 (r : String) (hs : List (String × String)) :
    List Rule403 → String × String × Int
  | [] => ("unknown_403", "Unclassified 403 Forbidden error", 2)
  | rule :: rest => if rule.1 r hs then rule.2 else applyRules403 r hs rest

/-- The code's actual rule order for 403 bodies: rate_limit,
auth_required, permission_denied, account_restricted, header_issue,
anti_bot, ip_blocked, then "unknown error" and the unclassified fallback. -/
def rules403 : List Rule403 :=
  [ (fun r hs => containsSub "rate limit" r || containsSub "too many requests" r
        || headerGet hs "x-rate-limit-remaining" == some "0",
     ("rate_limit", "API rate limit exceeded", 1)),
    (fun r _ => containsSub "authorization" r || containsSub "authenticate" r
        || containsSub "invalid token" r || containsSub "credential" r,
     ("auth_required", "Authentication required or invalid", 2)),
    (fun r _ => containsSub "permission" r || containsSub "access denied" r
        || containsSub "not authorized" r || containsSub "forbidden" r,
     ("permission_denied", "Insufficient permissions", 2)),
    (fun r _ => containsSub "account" r && (containsSub "restricted" r
        || containsSub "limited" r || containsSub "suspended" r
        || containsSub "locked" r),
     ("account_restricted", "Account restrictions detected", 3)),
    (fun r _ => containsSub "header" r || containsSub "user-agent" r
        || (containsSub "missing" r && containsSub "required" r),
     ("header_issue", "Header validation failed", 1)),
    (fun r _ => containsSub "bot" r || containsSub "automated" r
        || containsSub "suspicious" r || containsSub "unusual activity" r
        || containsSub "verification" r,
     ("anti_bot", "Anti-bot system triggered", 2)),
    (fun r _ => containsSub "ip" r && (containsSub "blocked" r
        || containsSub "restricted" r),
     ("ip_blocked", "IP address blocked or restricted", 3)),
    (fun r _ => containsSub "unknown error" r,
     ("unknown_403", "Twitter Unknown Error - likely anti-bot", 2)) ]

/-! ## Record-call sequences (for the history-table invariants) -/

/-- The arguments of one `record_block_result` call together with the
clock value at which it happens. -/
structure RecordOp where
  screen_name : Option String
  user_id : Option String
  display_name : Option String
  success : Bool
  status_code : Int
  error_message : Option String
  user_status : Option String
  retry_count : Int
  now : ℚ
deriving DecidableEq

/-- Replay a sequence of `record_block_result` calls against a table. -/
def applyOps (ops : List RecordOp) (tbl : List BlockRow) : List BlockRow :=
  ops.foldl (fun t op => record_block_result t op.screen_name op.user_id
    op.display_name op.success op.status_code op.error_message
    op.user_status op.retry_count op.now) tbl

/-- The stored `retry_count` of the first `block_history` row carrying a
given (known) user id. -/
def storedRetryCount (tbl : List BlockRow) (uid : String) : Option Int :=
  ((tbl.filter (fun r => r.user_id == some uid)).head?).bind (·.retry_count)

/-! ## Concrete fixtures for the counterexample/bug-witness theorems -/

/-- Scenario-5 precondition of the spec: a `failed` history row for id 300
with kind `not_found` (a non-retryable classification). -/
def row300 : BlockRow :=
  { screen_name := some "user300"
    user_id := some "300"
    display_name := none
    status := "failed"
    response_code := some 404
    error_message := some "User not_found (permanent)"
    user_status := some "not_found"
    retry_count := some 0
    last_retry_at := some 0 }

/-- A `failed` retry-candidate row used to witness the retry-cap theorem. -/
def rowRetryable : BlockRow :=
  { screen_name := some "carol"
    user_id := some "55"
    display_name := none
    status := "failed"
    response_code := some 500
    error_message := some "server error"
    user_status := some "unavailable"
    retry_count := some 3
    last_retry_at := some 0 }

/-- The candidate that `get_retry_candidates` produces from
`rowRetryable` once its backoff (30 · 2³ = 240 s) has elapsed. -/
def candRetryable : RetryCandidate :=
  { screen_name := some "carol"
    user_id := some "55"
    display_name := none
    retry_count := 3
    user_status := some "unavailable"
    last_error := some "server error" }

/-- History after a retry-pass failure record for user id 7 with
`retry_count = 3` (the call `_process_retry_user` issues on a failed
lookup, `manager.py` lines 597–606). -/
def c5_tbl1 : List BlockRow :=
  record_block_result [] (some "bob") (some "7") none false 404
    (some "ユーザー情報取得失敗 (リトライ)") none 3 0

/-- The same target as fetched in a later initial pass. -/
def c5_user : UserInfo :=
  { unavailable := false, user_status := some "active", id := some "7",
    name := some "Bob" }

/-- History after `_execute_block` then records a failed block attempt
for the same target: its record call passes `retry_count = 0`. -/
def c5_tbl2 : List BlockRow :=
  applyRecord c5_tbl1
    (execute_block_record c5_user "bob"
      { success := false, status_code := some 403,
        error_message := some "Unknown error" }) 1

/-! ## Theorems for the claims -/

/-- C1 (code bug): with spec scenario 5's precondition — a `failed` row for
id 300 whose stored classification is non-retryable (`should_retry`'s
decision component is `false`) — `is_permanent_failure` nevertheless
returns `false` and `get_permanent_failures_batch` returns the empty dict,
because both negate the always-truthy *tuple* returned by `should_retry`;
hence `unchecked_ids` still contains 300 and the engine issues a lookup
for it instead of skipping it as a known permanent failure. -/
theorem C1_permanent_failure_check_never_fires :
    (should_retry "not_found" (some 404) "User not_found (permanent)" 0 "" none).1
        = false
    ∧ is_permanent_failure [row300] "300" "user_id" = false
    ∧ get_permanent_failures_batch [row300] ["300", "301"] "user_id" = []
    ∧ unchecked_ids [row300] ["300", "301"] "user_id" = ["300", "301"] := by
  decide

/-- C2 (code bug): for a fetched profile with availability `not_found`,
the decision ladder's `_check_user_unavailable` records the *retryable*
branch — error text `"User not_found"` with no `(permanent)` marker —
even though the retry policy's decision component is `false` (permanent),
because the branch condition is the always-truthy tuple returned by
`should_retry`. -/
theorem C2_not_found_recorded_without_permanent_marker :
    (should_retry "not_found" (some 0) "User not_found" 0 "" none).1 = false
    ∧ check_user_unavailable
        { unavailable := true, user_status := some "not_found",
          id := some "42", name := some "nf" } "alice"
      = (true, some
          { screen_name := some "alice"
            user_id := some "42"
            display_name := some "nf"
            success := false
            status_code := 0
            error_message := some "User not_found"
            user_status := some "not_found"
            retry_count := 0 }) := by
  decide

/-- C3 counterexample: a body matching both the account-restriction
patterns and the permission patterns is classified `permission_denied`
(priority 2), not `account_restricted` (priority 3) as the claim's order
says; and a body matching both the ip patterns and the bot patterns is
classified `anti_bot`, not `ip_blocked`. -/
theorem C3_counterexample_order :
    classify_403_error "account suspended and forbidden" none 403
        = ("permission_denied", "Insufficient permissions", 2)
    ∧ (classify_403_error "account suspended and forbidden" none 403).1
        ≠ "account_restricted"
    ∧ classify_403_error "your ip was blocked by automated bot detection" none 403
        = ("anti_bot", "Anti-bot system triggered", 2)
    ∧ (classify_403_error "your ip was blocked by automated bot detection" none 403).1
        ≠ "ip_blocked" := by
  decide

/-- C3 amended: for every 403 response the classifier inspects body and
headers as an ordered first-match rule table — but in the order
rate_limit, auth_required, permission_denied, account_restricted,
header_issue, anti_bot, ip_blocked, unknown — so a body matching both the
account patterns and the permission patterns is `permission_denied`, and
a body matching both the ip and bot patterns is `anti_bot`. -/
theorem C3_classifier_is_ordered_first_match
    (response_text : String) (headers : Option (List (String × String))) :
    classify_403_error response_text headers 403 =
      applyRules403 (pyLower response_text) (headers.getD []) rules403 := by
  rfl

/-- Helper: the 403 classifier never returns an empty kind string. -/
theorem classify_403_fst_ne_empty (t : String)
    (h : Option (List (String × String))) (sc : Int) :
    (classify_403_error t h sc).1 ≠ "" := by
  unfold classify_403_error
  split
  · decide
  · dsimp only
    repeat' first
      | decide
      | (split
         · decide)

/-- Helper: a string starting with `status_code_` is nonempty. -/
theorem status_code_string_ne_empty (s : String) :
    ("status_code_" ++ s) ≠ "" := by
  intro h
  have h' := congrArg String.length h
  rw [String.length_append] at h'
  have h12 : ("status_code_" : String).length = 12 := by decide
  have h0 : ("" : String).length = 0 := by decide
  omega

/-- C10: `should_retry` is total and every return site yields a 2-tuple
whose classification component is a non-`None`, nonempty string; since a
2-tuple object is truthy in Python regardless of its components, the
returned value used directly as a truth value is true on every input,
including those whose decision component is `false`. -/
theorem C10_should_retry_always_truthy_pair (user_status : String)
    (status_code : Option Int) (error_message : String) (retry_count : Int)
    (response_text : String)
    (response_headers : Option (List (String × String))) :
    (∃ s : String,
        (should_retry user_status status_code error_message retry_count
          response_text response_headers).2 = some s ∧ s ≠ "")
    ∧ pyTruthyPair (should_retry user_status status_code error_message
        retry_count response_text response_headers) = true := by
  refine ⟨?_, rfl⟩
  unfold should_retry
  split
  · exact ⟨_, rfl, by decide⟩
  · split
    · exact ⟨_, rfl, by decide⟩
    · split
      · exact ⟨_, rfl, by decide⟩
      · split
        · dsimp only
          split
          · exact ⟨_, rfl, classify_403_fst_ne_empty _ _ _⟩
          · exact ⟨_, rfl, classify_403_fst_ne_empty _ _ _⟩
        · split
          · exact ⟨_, rfl, status_code_string_ne_empty _⟩
          · split
            · exact ⟨_, rfl, by decide⟩
            · split
              · exact ⟨_, rfl, by decide⟩
              · split
                · exact ⟨_, rfl, by decide⟩
                · exact ⟨_, rfl, by decide⟩

/-- C4 counterexample: two `Record` calls for the same handle `alice`
whose id is unknown (`user_id = NULL`) leave *two* rows in the table —
the second call appends instead of replacing, because the only conflict
key is `UNIQUE(user_id)` and SQLite treats NULLs as distinct. -/
theorem C4_counterexample_null_id_rows_accumulate :
    (record_block_result
        (record_block_result [] (some "alice") none none false 404 (some "e1") none 0 0)
        (some "alice") none none false 403 (some "e2") none 0 1).length = 2
    ∧ ((record_block_result
        (record_block_result [] (some "alice") none none false 404 (some "e1") none 0 0)
        (some "alice") none none false 403 (some "e2") none 0 1).filter
          (fun r => r.user_id == none && r.screen_name == some "alice")).length = 2 := by
  decide

/-- Helper: one `record_block_result` call preserves "at most one row per
known user id". -/
theorem record_step_unique_id (tbl : List BlockRow) (op : RecordOp)
    (uid : String)
    (h : ((tbl.filter (fun r => r.user_id == some uid)).length ≤ 1)) :
    (((record_block_result tbl op.screen_name op.user_id op.display_name
        op.success op.status_code op.error_message op.user_status
        op.retry_count op.now).filter
          (fun r => r.user_id == some uid)).length ≤ 1) := by
  unfold record_block_result
  cases hop : op.user_id with
  | none =>
      rw [List.filter_append]
      simp only [List.filter_cons, List.filter_nil]
      simp only [show ((none : Option String) == some uid) = false from rfl]
      simpa using h
  | some uid' =>
      rw [List.filter_append]
      by_cases huid : uid' = uid
      · subst huid
        have hnil : (tbl.filter (fun r => decide (r.user_id ≠ some uid'))).filter
            (fun r => r.user_id == some uid') = [] := by
          rw [List.filter_filter]
          apply List.filter_eq_nil_iff.mpr
          intro r _
          by_cases hr : r.user_id = some uid' <;> simp [hr]
        rw [hnil]
        simp
      · have hrow : ((⟨op.screen_name, some uid', op.display_name,
            if op.success then "blocked" else "failed", some op.status_code,
            op.error_message, op.user_status, some op.retry_count,
            some op.now⟩ : BlockRow).user_id == some uid) = false := by
          simp [huid]
        have hsub : ((tbl.filter (fun r => decide (r.user_id ≠ some uid'))).filter
            (fun r => r.user_id == some uid)).length
            ≤ (tbl.filter (fun r => r.user_id == some uid)).length :=
          (((tbl.filter_sublist (p := fun r => decide (r.user_id ≠ some uid'))).filter
            (fun r => r.user_id == some uid)).length_le)
        simp only [List.filter_cons, List.filter_nil, hrow]
        simpa using le_trans hsub h

/-- Helper: replaying record calls preserves the per-id uniqueness bound. -/
theorem applyOps_unique_id (ops : List RecordOp) (tbl : List BlockRow)
    (uid : String)
    (h : ((tbl.filter (fun r => r.user_id == some uid)).length ≤ 1)) :
    (((applyOps ops tbl).filter (fun r => r.user_id == some uid)).length ≤ 1) := by
  induction ops generalizing tbl with
  | nil => exact h
  | cons op ops ih =>
      exact ih _ (record_step_unique_id tbl op uid h)

/-- C4 amended: `Record` is an upsert keyed on `user_id` alone, so after
any sequence of `Record` calls starting from the empty table the history
contains at most one row per *known* user id; rows whose id is unknown
are outside the conflict key and accumulate (a second outcome for a
handle with unknown id adds a row, it does not replace). -/
theorem C4_amended_at_most_one_row_per_known_id (ops : List RecordOp)
    (uid : String) :
    ((applyOps ops []).filter (fun r => r.user_id == some uid)).length ≤ 1 :=
  applyOps_unique_id ops [] uid (by simp)

/-- C5 counterexample: an engine-reachable `Record` sequence in which the
stored retry_count decreases.  `c5_tbl1` is the history after a
retry-pass failure record with `retry_count = 3`
(`_process_retry_user`); `c5_tbl2` is the history after a later initial
pass reaches `_execute_block` for the same target (the broken
permanent-failure check never filters it out) and its failure branch
records with `retry_count = 0`.  The stored count drops from 3 to 0. -/
theorem C5_counterexample_retry_count_decreases :
    storedRetryCount c5_tbl1 "7" = some 3
    ∧ storedRetryCount c5_tbl2 "7" = some 0 := by
  decide

/-- C5 amended: a `Record` call overwrites the row's `retry_count` with
exactly the `retry_count` argument it is given — no maximum with the
previously stored value is taken — so monotonicity holds only along call
sequences whose passed values are non-decreasing; the decision-ladder
recordings pass 0 and can therefore lower a previously raised count. -/
theorem C5_amended_record_overwrites_retry_count (tbl : List BlockRow)
    (sn dn em us : Option String) (success : Bool) (sc rc : Int) (now : ℚ)
    (uid : String) :
    ∀ r ∈ record_block_result tbl sn (some uid) dn success sc em us rc now,
      r.user_id = some uid → r.retry_count = some rc := by
  intro r hr hid
  unfold record_block_result at hr
  rw [List.mem_append] at hr
  rcases hr with hmem | hrow
  · rw [List.mem_filter] at hmem
    exact absurd hid (by simpa using hmem.2)
  · rw [List.mem_singleton] at hrow
    subst hrow
    rfl

/-- C5 witness: the amended overwrite theorem applied to a concrete
record call with `retry_count = 5`. -/
theorem C5_amended_record_overwrites_retry_count_witness :
    ({ screen_name := some "a"
       user_id := some "9"
       display_name := none
       status := "failed"
       response_code := some 0
       error_message := none
       user_status := none
       retry_count := some 5
       last_retry_at := some 0 } : BlockRow).retry_count = some 5 :=
  C5_amended_record_overwrites_retry_count [] (some "a") none none none
    false 0 5 0 "9" _ (by decide) (by decide)

/-- C6: for every spec error kind, attempt count and attempt-history
state, the computed retry delay (the §4.D adaptive path of
`get_retry_delay`, i.e. status 403 with a nonempty classification)
equals
`clamp(int(30 × base-multiplier × min(2^attempt, 8) × success-rate
modifier), kind minimum, kind maximum)`; and every kind outside the
table gets base multiplier 1.  The spec's kind `unknown_forbidden` is
the code's classification string `"unknown_403"` (`kindString`). -/
theorem C6_retry_delay_matches_formula (k : SpecErrorKind) (attempt : ℕ)
    (history : List AttemptEntry) (now : ℚ) :
    get_retry_delay history now attempt 30 (some 403) "" (kindString k)
      = max (specMinDelay k)
          (min (Int.floor ((30 : ℚ) * specBaseMultiplier k
                * ((min ((2 : ℤ) ^ attempt) 8 : ℤ) : ℚ)
                * success_multiplier_of_rate
                    (calculate_recent_success_rate history now (kindString k))))
            (specMaxDelay k))
    ∧ ∀ s : String,
        s ∉ ["rate_limit", "auth_required", "permission_denied",
             "account_restricted", "header_issue", "unknown_403",
             "anti_bot", "ip_blocked"] →
        type_multiplier s = 1 := by
  constructor
  · cases k <;> rfl
  · intro s hs
    simp only [List.mem_cons, List.not_mem_nil, or_false, not_or] at hs
    obtain ⟨h1, h2, h3, h4, h5, h6, h7, h8⟩ := hs
    simp [type_multiplier, h1, h2, h3, h4, h5, h6, h7, h8]

/-- C6 witness: the formula theorem evaluated for `rate_limit` at attempt
2 with an empty attempt history, and the default multiplier at the
out-of-table kind `server_error`. -/
theorem C6_retry_delay_matches_formula_witness :
    get_retry_delay [] 0 2 30 (some 403) "" (kindString .rate_limit)
      = max (specMinDelay .rate_limit)
          (min (Int.floor ((30 : ℚ) * specBaseMultiplier .rate_limit
                * ((min ((2 : ℤ) ^ 2) 8 : ℤ) : ℚ)
                * success_multiplier_of_rate
                    (calculate_recent_success_rate [] 0 (kindString .rate_limit))))
            (specMaxDelay .rate_limit))
    ∧ type_multiplier "server_error" = 1 :=
  ⟨(C6_retry_delay_matches_formula .rate_limit 2 [] 0).1,
   (C6_retry_delay_matches_formula .rate_limit 2 [] 0).2 "server_error" (by decide)⟩

/-- C7: when the `x-rate-limit-reset` header parses as an integer, the
computed wait `max(60, min(max(reset − now, 0) + 10, 900))` equals the
spec's `max(60, min(reset − now + 10, 900))`, and every reset in the
past yields exactly 60 seconds. -/
theorem C7_wait_time_matches_spec (reset now : Int) :
    calculate_wait_time reset now = max 60 (min (reset - now + 10) 900)
    ∧ (reset < now → calculate_wait_time reset now = 60) := by
  unfold calculate_wait_time
  dsimp only
  constructor
  · rcases le_total (reset - now) 0 with h | h
    · rw [max_eq_right h,
          min_eq_left (show reset - now + 10 ≤ 900 by omega),
          max_eq_left (show reset - now + 10 ≤ 60 by omega)]
      decide
    · rw [max_eq_left h]
  · intro h
    rw [max_eq_right (show reset - now ≤ 0 by omega)]
    decide

/-- C7 witness: a reset 100 s in the past with `now = 200` waits exactly
60 seconds. -/
theorem C7_wait_time_matches_spec_witness : calculate_wait_time 100 200 = 60 :=
  (C7_wait_time_matches_spec 100 200).2 (by decide)

/-- Helper: the concrete retryable row yields exactly the concrete
candidate once its 240 s backoff has elapsed. -/
theorem retry_candidates_fixture :
    get_retry_candidates [rowRetryable] 1000 = [candRetryable] := by
  simp only [get_retry_candidates, rowRetryable, candRetryable, pyPow2]
  norm_num [List.filter, List.filterMap, containsSub, listHasInfix]
  rw [if_pos (show (30 : ℚ) * 2 ^ Int.toNat 3 ≤ 1000 by
    rw [show Int.toNat 3 = 3 from rfl]; norm_num)]

/-- C8: the retry cap is 10.  `should_retry` returns no-retry with
classification `max_retries_exceeded` whenever the attempt count is at
least 10 — this check comes first, taking precedence over every other
rule — and every row `get_retry_candidates` returns has
`retry_count < 10`, so attempt 10 (from a row with count 9) is processed
while attempt 11 is never issued. -/
theorem C8_retry_cap_is_ten :
    (∀ (user_status : String) (status_code : Option Int)
        (error_message : String) (retry_count : Int)
        (response_text : String)
        (response_headers : Option (List (String × String))),
      retry_count ≥ 10 →
      should_retry user_status status_code error_message retry_count
          response_text response_headers
        = (false, some "max_retries_exceeded"))
    ∧ ∀ (tbl : List BlockRow) (now : ℚ) (c : RetryCandidate),
        c ∈ get_retry_candidates tbl now → c.retry_count < 10 := by
  constructor
  · intro us sc em rc rt rh h
    unfold should_retry
    rw [if_pos (show rc ≥ MAX_RETRIES from h)]
  · intro tbl now c hc
    unfold get_retry_candidates at hc
    rw [List.mem_filterMap] at hc
    obtain ⟨r, hr, heq⟩ := hc
    rw [List.mem_filter] at hr
    have hpred := hr.2
    rw [Bool.and_eq_true, Bool.and_eq_true] at hpred
    have hrc := hpred.1.2
    cases hlast : r.last_retry_at with
    | none => rw [hlast] at heq; simp at heq
    | some t =>
        rw [hlast] at heq
        dsimp only at heq
        by_cases hwait : now - t ≥ 30 * pyPow2 (r.retry_count.getD 0)
        · rw [if_pos hwait] at heq
          have hc' := Option.some_inj.mp heq
          rw [← hc']
          dsimp only
          cases hrcv : r.retry_count with
          | none => rw [hrcv] at hrc; simp at hrc
          | some n => rw [hrcv] at hrc; simpa using hrc
        · rw [if_neg hwait] at heq
          simp at heq

/-- C8 witness: `should_retry` at attempt count exactly 10 refuses with
`max_retries_exceeded`, and the candidate produced from a concrete
retryable `failed` row has `retry_count = 3 < 10`. -/
theorem C8_retry_cap_is_ten_witness :
    should_retry "active" (some 500) "x" 10 "" none
      = (false, some "max_retries_exceeded")
    ∧ candRetryable.retry_count < 10 := by
  constructor
  · exact C8_retry_cap_is_ten.1 "active" (some 500) "x" 10 "" none (by decide)
  · exact C8_retry_cap_is_ten.2 [rowRetryable] 1000 candRetryable
      (by rw [retry_candidates_fixture]; exact List.mem_singleton.mpr rfl)

/-- C9 counterexample: with empty history and input `["a", "a"]` nothing
deduplicates: `get_remaining_users` keeps both occurrences and the
slice's `unchecked_ids` — the list the engine then sends to the batch
lookup and iterates through the decision ladder — contains `a` twice. -/
theorem C9_counterexample_duplicates_dispatched :
    get_remaining_users [] ["a", "a"] "user_id" = ["a", "a"]
    ∧ unchecked_ids [] ["a", "a"] "user_id" = ["a", "a"]
    ∧ (unchecked_ids [] ["a", "a"] "user_id").count "a" = 2 := by
  decide

/-- C9 amended: the engine drops no duplicates; it filters the slice only
against history (already-blocked targets and the — in fact always empty —
permanent-failures batch), so an identifier that survives those filters
is dispatched once per occurrence: its multiplicity in `unchecked_ids`
equals its multiplicity in the slice. -/
theorem C9_amended_dispatch_multiplicity (tbl : List BlockRow)
    (batch : List String) (fmt x : String) :
    (unchecked_ids tbl batch fmt).count x =
      if (!is_already_blocked tbl x fmt
          && !((get_permanent_failures_batch tbl batch fmt).any
                (fun kv => kv.1 == x))) = true
      then batch.count x
      else 0 := by
  unfold unchecked_ids
  dsimp only
  split
  · rename_i h
    exact List.count_filter h
  · rename_i h
    rw [List.count_eq_zero]
    intro hmem
    rw [List.mem_filter] at hmem
    exact h hmem.2
